import Mathlib

/-!
Verification development for the reactive propagation core of the pvt
repository (src/pvt).  The Python sources are shallowly embedded as
executable Lean definitions:

* `PyVal` models the dynamic values held by controls (Python objects);
  the cache sentinel `None` is `PyVal.none`.
* `Dict` models a Python `dict[str, object]` as an association list with
  insert-or-update assignment (`dictSet`) and lookup (`dictGet?`).
* `Callback` embeds `pvt.callback.Callback`: the cache configuration, the
  `_parameter_cache` dictionary, and the self-overwriting `should_run`
  dispatch (modelled by the `overridden` flag).  The wrapped user function
  `_func` is carried separately on `StatefulDisplay.func`, since
  `Callback.__call__` forwards all arguments to it unchanged.
* `PyFunc`/`pyCall` embed the Python keyword-call semantics that
  `StatefulDisplay._StatefulDisplay__compute_data` relies on: an
  unexpected keyword raises `TypeError` unless the function declares
  `**kwargs`; a declared parameter that is neither supplied nor defaulted
  raises `TypeError`.
* `VisualizerState` embeds `pvt.state.VisualizerState`; the Qt signal
  `state_changed` with its direct, connection-ordered slot delivery is
  modelled as the `subscribers` list and the `broadcast` loop.  A Python
  exception raised inside a slot propagates out of `emit`, which is
  modelled by the `Option PyErr` component threaded through
  `modify_state`, `flush` and `configure_state`.
* `configure_state` embeds `pvt.context.configure_state`.
* `StatefulAnimator` embeds the tick counter and emission behaviour of
  `pvt.controls.StatefulAnimator`; the `np.uint64` counter is a `Nat`
  reduced modulo `2 ^ 64`.
-/

/-- Dynamic Python values as used by the core: the `None` sentinel that
`Callback.__init__` stores in `_parameter_cache`, and integer control
values (sliders, toggles, animation ticks). -/
inductive PyVal where
  | none
  | int (n : Int)
deriving DecidableEq

/-- Python exceptions that the embedded core can raise. -/
inductive PyErr where
  | keyError (key : String)
  | typeError (key : String)
  | valueError (msg : String)
  | assertionError (msg : String)
  | userError (msg : String)
deriving DecidableEq

/-- A Python `dict[str, object]` as an association list in insertion
order. -/
abbrev Dict := List (String × PyVal)

/-- Python `d[k] = v`: replace the value in place when the key exists,
append otherwise. -/
def dictSet : Dict → String → PyVal → Dict
  | [], k, v => [(k, v)]
  | (k₀, v₀) :: rest, k, v =>
      if k₀ = k then (k₀, v) :: rest else (k₀, v₀) :: dictSet rest k v

/-- Python `d.get(k)` / `d[k]` lookup (the caller decides whether a
missing key is a `KeyError`). -/
def dictGet? : Dict → String → Option PyVal
  | [], _ => Option.none
  | (k₀, v₀) :: rest, k => if k₀ = k then Option.some v₀ else dictGet? rest k

/-- Embeds `Callback.Config.CacheType` (`callback.py`): the only variant
is `Fake`. -/
inductive CacheType where
  | Fake
deriving DecidableEq

/-- Embeds `Callback.Config` (`callback.py`): `cache_type` and
`cached_parameters`. -/
structure CallbackConfig where
  cache_type : Option CacheType
  cached_parameters : List String
deriving DecidableEq

/-- Embeds the mutable state of `pvt.callback.Callback`: its config, the
`_parameter_cache` dict, and whether the first `should_run` call has
already overwritten the method (`overridden`). -/
structure Callback where
  config : CallbackConfig
  parameter_cache : Dict
  overridden : Bool
deriving DecidableEq

/-- Embeds `Callback.__init__`: `_parameter_cache` is the dict
comprehension mapping every configured parameter name to `None`. -/
def Callback.init (config : CallbackConfig) : Callback :=
  { config := config
    parameter_cache :=
      config.cached_parameters.foldl (fun d p => dictSet d p PyVal.none) []
    overridden := false }

/-- Embeds the loop body of `Callback._should_run` (`callback.py` lines
74 - 80): iterate the cache keys in order; `kwds[k]` raises `KeyError`
when the key is absent; a differing value is written back to the cache
and marks the call dirty. -/
def Callback.should_run_cached_loop (kwds : Dict) : Dict → Except PyErr (Bool × Dict)
  | [] => Except.ok (false, [])
  | (k, cached) :: rest =>
      match dictGet? kwds k with
      | Option.none => Except.error (PyErr.keyError k)
      | Option.some v =>
          match Callback.should_run_cached_loop kwds rest with
          | Except.error e => Except.error e
          | Except.ok (dirtyRest, rest₂) =>
              if cached ≠ v then Except.ok (true, (k, v) :: rest₂)
              else Except.ok (dirtyRest, (k, cached) :: rest₂)

/-- Embeds `Callback.should_run` (`callback.py` lines 41 - 64): the first
call always returns `True` and overwrites the method with either
`_should_run` (when `cache_type` is `Fake`) or a constant-`True` lambda;
note that the first call does not touch `_parameter_cache`. -/
def Callback.should_run (cb : Callback) (kwds : Dict) : Except PyErr (Bool × Callback) :=
  if cb.overridden = false then
    Except.ok (true, { cb with overridden := true })
  else if cb.config.cache_type = Option.some CacheType.Fake then
    match Callback.should_run_cached_loop kwds cb.parameter_cache with
    | Except.error e => Except.error e
    | Except.ok (dirty, cache₂) =>
        Except.ok (dirty, { cb with parameter_cache := cache₂ })
  else
    Except.ok (true, cb)

/-- Embeds the `blacklist` argument of `use_parameter_cache`
(`decorators.py`): either a list of names or the literal string "all". -/
inductive Blacklist where
  | list (bs : List String)
  | all
deriving DecidableEq

/-- Python truthiness of the `blacklist` argument: a non-empty list and
the string "all" are truthy. -/
def Blacklist.truthy : Blacklist → Bool
  | Blacklist.list bs => !bs.isEmpty
  | Blacklist.all => true

/-- Embeds `check_param_name` inside `use_parameter_cache`: raise
`ValueError` when a listed name is not a real named parameter. -/
def check_params : List String → List String → Except PyErr Unit
  | [], _ => Except.ok ()
  | p :: rest, paramset =>
      if p ∈ paramset then check_params rest paramset
      else Except.error (PyErr.valueError p)

/-- Embeds `use_parameter_cache` (`decorators.py` lines 101 - 172).
`callback_paramset` is the list of the named, non-variadic parameters of
the decorated function (computed there by `inspect.signature`).  The
four cases are translated exactly as written, including the
`blacklist == "all"` branch which sets `cached_parameters` to the whole
paramset. -/
def use_parameter_cache (callback_paramset : List String)
    (whitelist : List String) (blacklist : Blacklist) : Except PyErr Callback :=
  if !whitelist.isEmpty && blacklist.truthy then
    Except.error (PyErr.assertionError "multiple strategies were specified")
  else if whitelist.isEmpty && !blacklist.truthy then
    Except.ok (Callback.init
      { cache_type := Option.some CacheType.Fake
        cached_parameters := callback_paramset })
  else if !whitelist.isEmpty then
    match check_params whitelist callback_paramset with
    | Except.error e => Except.error e
    | Except.ok _ =>
        Except.ok (Callback.init
          { cache_type := Option.some CacheType.Fake
            cached_parameters := whitelist })
  else
    match blacklist with
    | Blacklist.all =>
        Except.ok (Callback.init
          { cache_type := Option.some CacheType.Fake
            cached_parameters := callback_paramset })
    | Blacklist.list bs =>
        match check_params bs callback_paramset with
        | Except.error e => Except.error e
        | Except.ok _ =>
            Except.ok (Callback.init
              { cache_type := Option.some CacheType.Fake
                cached_parameters := callback_paramset.filter (fun p => !bs.contains p) })

/-- Embeds a Python callable at the call boundary used by
`StatefulDisplay`: its named, non-variadic parameters, the defaulted
parameters among them, whether it declares a variadic keyword parameter
(`**kwargs`), and its body as a function of the bound arguments. -/
structure PyFunc where
  params : List String
  defaults : Dict
  hasVarKw : Bool
  impl : Dict → Except PyErr PyVal

/-- Keyword-call semantics, first check: the first keyword in `kwargs`
that is not a declared parameter of a function without `**kwargs`
(Python raises `TypeError: unexpected keyword argument`). -/
def unexpected_key (f : PyFunc) (kwargs : Dict) : Option String :=
  if f.hasVarKw then Option.none
  else (kwargs.map Prod.fst).find? (fun k => !f.params.contains k)

/-- Keyword-call semantics, second check: the first declared parameter
that is neither supplied in `kwargs` nor defaulted (Python raises
`TypeError: missing required argument`). -/
def missing_param (f : PyFunc) (kwargs : Dict) : Option String :=
  f.params.find? (fun p =>
    (dictGet? kwargs p).isNone && (dictGet? f.defaults p).isNone)

/-- Arguments seen by the body of a successfully called function: every
declared parameter bound to its supplied or default value, plus the
excess keywords collected by `**kwargs` when present. -/
def bound_args (f : PyFunc) (kwargs : Dict) : Dict :=
  f.params.map (fun p =>
      (p, ((dictGet? kwargs p).getD ((dictGet? f.defaults p).getD PyVal.none))))
    ++ (if f.hasVarKw then kwargs.filter (fun kv => !f.params.contains kv.1) else [])

/-- Python call `f(**kwargs)` as performed by
`StatefulDisplay.__compute_data` via `Callback.__call__` (which forwards
all keyword arguments to the wrapped `_func` unchanged). -/
def pyCall (f : PyFunc) (kwargs : Dict) : Except PyErr PyVal :=
  match unexpected_key f kwargs with
  | Option.some k => Except.error (PyErr.typeError k)
  | Option.none =>
      match missing_param f kwargs with
      | Option.some p => Except.error (PyErr.typeError p)
      | Option.none => f.impl (bound_args f kwargs)

/-- Embeds the observable state of `pvt.displays.StatefulDisplay`: the
wrapped `Callback` cache state, the user function, the concrete
`_render_data` implementation (fallible, like the pyqtgraph calls it
stands for), and instrumentation counters recording how many snapshot
notifications were handled, how many compute plus render cycles ran,
and the trace of rendered values. -/
structure StatefulDisplay where
  callback : Callback
  func : PyFunc
  render_data : PyVal → Except PyErr PyVal
  notify_count : Nat
  compute_count : Nat
  renders : List PyVal

/-- Embeds `StatefulDisplay.on_viewer_state_changed` (`displays.py`
lines 61 - 74): ask `should_run`, and when it answers `True` run
`__compute_data` (the full snapshot is passed through as keyword
arguments) and then `__render_data`.  Any exception propagates to the
caller. -/
def on_viewer_state_changed (d : StatefulDisplay) (kwargs_as_dict : Dict) :
    Except PyErr StatefulDisplay :=
  match Callback.should_run d.callback kwargs_as_dict with
  | Except.error e => Except.error e
  | Except.ok (sr, cb₂) =>
      if sr then
        match pyCall d.func kwargs_as_dict with
        | Except.error e => Except.error e
        | Except.ok data =>
            match d.render_data data with
            | Except.error e => Except.error e
            | Except.ok rendered =>
                Except.ok { d with
                  callback := cb₂
                  notify_count := d.notify_count + 1
                  compute_count := d.compute_count + 1
                  renders := d.renders ++ [rendered] }
      else
        Except.ok { d with callback := cb₂, notify_count := d.notify_count + 1 }

/-- Embeds `pvt.state.VisualizerControlSignal` (the dataclass fields). -/
structure ControlSignal where
  key : String
  value : PyVal
deriving DecidableEq

/-- Embeds `VisualizerControlSignal.__post_init__`: constructing a signal
with an empty key raises `ValueError`. -/
def mkControlSignal (key : String) (value : PyVal) : Except PyErr ControlSignal :=
  if key = "" then Except.error (PyErr.valueError "key cannot be empty")
  else Except.ok { key := key, value := value }

/-- Embeds `pvt.state.VisualizerState`: the `_storage` dict plus the
slots connected to the `state_changed` signal, kept in connection
order. -/
structure VisualizerState where
  storage : Dict
  subscribers : List StatefulDisplay

/-- Embeds `state_changed.emit(storage)`: deliver the snapshot to each
connected display in connection order; a Python exception raised in a
slot propagates out of `emit`, aborting delivery to the remaining
slots. -/
def broadcast (snap : Dict) : List StatefulDisplay → List StatefulDisplay × Option PyErr
  | [] => ([], Option.none)
  | d :: rest =>
      match on_viewer_state_changed d snap with
      | Except.error e => (d :: rest, Option.some e)
      | Except.ok d₂ =>
          match broadcast snap rest with
          | (rest₂, err) => (d₂ :: rest₂, err)

/-- Embeds `VisualizerState.modify_state` (`state.py` lines 44 - 47):
the write to `_storage` is committed first, then the whole snapshot is
broadcast.  The second component is the exception, if any, escaping the
broadcast; the storage mutation is never rolled back. -/
def modify_state (s : VisualizerState) (sig : ControlSignal) :
    VisualizerState × Option PyErr :=
  let storage₂ := dictSet s.storage sig.key sig.value
  let r := broadcast storage₂ s.subscribers
  ({ storage := storage₂, subscribers := r.1 }, r.2)

/-- Embeds `VisualizerState.flush` (`state.py` lines 49 - 50):
re-broadcast the current snapshot without mutating storage. -/
def flush (s : VisualizerState) : VisualizerState × Option PyErr :=
  let r := broadcast s.storage s.subscribers
  ({ s with subscribers := r.1 }, r.2)

/-- A sequence of `modify_state` calls, stopping at the first escaping
exception (each call is one synchronous control interaction). -/
def run_modifies (s : VisualizerState) : List ControlSignal → VisualizerState × Option PyErr
  | [] => (s, Option.none)
  | sig :: rest =>
      let r := modify_state s sig
      match r.2 with
      | Option.some e => (r.1, Option.some e)
      | Option.none => run_modifies r.1 rest

/-- Embeds the `(key, current value)` view of `pvt.controls.StatefulControl`
that `configure_state` consumes through `query_control_signal`. -/
structure Control where
  key : String
  value : PyVal
deriving DecidableEq

/-- Embeds the control loop of `pvt.context.configure_state` (lines
31 - 37): fail on a key already seen in this call, otherwise connect the
control and immediately push its current signal into the hub.  An
exception escaping `modify_state` propagates out of `configure_state`. -/
def configure_loop : VisualizerState → List String → List Control →
    Except PyErr VisualizerState
  | st, _, [] => Except.ok st
  | st, keyset, c :: rest =>
      if c.key ∈ keyset then Except.error (PyErr.valueError c.key)
      else
        match mkControlSignal c.key c.value with
        | Except.error e => Except.error e
        | Except.ok sig =>
            let r := modify_state st sig
            match r.2 with
            | Option.some e => Except.error e
            | Option.none => configure_loop r.1 (c.key :: keyset) rest

/-- Embeds `pvt.context.configure_state` (lines 8 - 46): process all
controls first (against a fresh or supplied state), then connect the
displays, then `flush` exactly once. -/
def configure_state (displays : List StatefulDisplay) (controls : List Control)
    (state : Option VisualizerState) : Except PyErr VisualizerState :=
  let st₀ := match state with
    | Option.some s => s
    | Option.none => { storage := [], subscribers := [] }
  match configure_loop st₀ [] controls with
  | Except.error e => Except.error e
  | Except.ok st₁ =>
      let st₂ := { st₁ with subscribers := st₁.subscribers ++ displays }
      let r := flush st₂
      match r.2 with
      | Option.some e => Except.error e
      | Option.none => Except.ok r.1

/-- The modulus of the `np.uint64` animation counter. -/
def UINT64_MOD : Nat := 18446744073709551616

/-- Embeds the tick counter and emission trace of
`pvt.controls.StatefulAnimator`: `animation_tick` is the value of the
`np.uint64` counter (an invariantly reduced `Nat`), and `emitted`
records every `VisualizerControlSignal` sent through `_on_change`. -/
structure StatefulAnimator where
  animation_tick : Nat
  emitted : List ControlSignal
deriving DecidableEq

/-- The `VisualizerControlSignal` that `query_control_signal` constructs
for the animator at counter value `n`: the reserved key
`"animation_tick"` paired with the counter. -/
def tick_signal (n : Nat) : ControlSignal :=
  { key := "animation_tick", value := PyVal.int (Int.ofNat n) }

/-- Embeds `StatefulControl._on_change` composed with
`query_control_signal`: emit one signal carrying the reserved key
`"animation_tick"` and the current counter value. -/
def StatefulAnimator.on_change (a : StatefulAnimator) : StatefulAnimator :=
  { a with emitted := a.emitted ++ [tick_signal a.animation_tick] }

/-- Embeds `StatefulAnimator.forward`: `self._animation_tick += 1` in
`np.uint64` arithmetic, then `self._on_change()`. -/
def StatefulAnimator.forward (a : StatefulAnimator) : StatefulAnimator :=
  StatefulAnimator.on_change
    { a with animation_tick := (a.animation_tick + 1) % UINT64_MOD }

/-- Embeds `StatefulAnimator.reverse`: `self._animation_tick -= 1` in
`np.uint64` arithmetic (subtraction modulo `2 ^ 64`, so wrapping at
zero), then `self._on_change()`. -/
def StatefulAnimator.reverse (a : StatefulAnimator) : StatefulAnimator :=
  StatefulAnimator.on_change
    { a with animation_tick := (a.animation_tick + (UINT64_MOD - 1)) % UINT64_MOD }

/-- Embeds `StatefulAnimator.reset`: zero the counter and emit. -/
def StatefulAnimator.reset (a : StatefulAnimator) : StatefulAnimator :=
  StatefulAnimator.on_change { a with animation_tick := 0 }

/-- Embeds `StatefulAnimator.on_tick`: increment (in `np.uint64`
arithmetic) and emit, exactly like `forward`. -/
def StatefulAnimator.on_tick (a : StatefulAnimator) : StatefulAnimator :=
  StatefulAnimator.on_change
    { a with animation_tick := (a.animation_tick + 1) % UINT64_MOD }

/-- A dictionary write is visible to a subsequent read of the same key. -/
lemma dictGet?_dictSet_self (d : Dict) (k : String) (v : PyVal) :
    dictGet? (dictSet d k v) k = Option.some v := by
  induction d with
  | nil => simp [dictSet, dictGet?]
  | cons kv rest ih =>
      obtain ⟨k₀, v₀⟩ := kv
      by_cases hk : k₀ = k
      · simp [dictSet, dictGet?, hk]
      · simp [dictSet, dictGet?, hk, ih]

/-- The first `should_run` call returns `True` and leaves the parameter
cache untouched; it only swaps the dispatched method. -/
lemma should_run_first (cb : Callback) (kwds : Dict) (h : cb.overridden = false) :
    Callback.should_run cb kwds = Except.ok (true, { cb with overridden := true }) := by
  simp [Callback.should_run, h]

/-- When no cache was configured, `should_run` answers `True` on every
call (the method overwritten on the first call is a constant-`True`
lambda), never touching the config. -/
lemma should_run_nocache (cb : Callback) (kwds : Dict)
    (h : cb.config.cache_type = Option.none) :
    ∃ cb₂, Callback.should_run cb kwds = Except.ok (true, cb₂)
      ∧ cb₂.config = cb.config ∧ cb₂.parameter_cache = cb.parameter_cache := by
  by_cases hov : cb.overridden = false
  · exact ⟨{ cb with overridden := true }, should_run_first cb kwds hov, rfl, rfl⟩
  · refine ⟨cb, ?_, rfl, rfl⟩
    simp [Callback.should_run, hov, h]

/-- Characterization of the `_should_run` loop when every cached key is
present in the keyword arguments: it reports dirty exactly when some
cached parameter differs from its recorded value, and it leaves the
cache holding the current values of all cached parameters. -/
lemma should_run_cached_loop_spec (kwds : Dict) :
    ∀ cache : Dict, (∀ kv ∈ cache, (dictGet? kwds kv.1).isSome = true) →
      Callback.should_run_cached_loop kwds cache =
        Except.ok
          (cache.any (fun kv => decide (dictGet? kwds kv.1 ≠ Option.some kv.2)),
           cache.map (fun kv => (kv.1, (dictGet? kwds kv.1).getD kv.2))) := by
  intro cache
  induction cache with
  | nil => intro _; rfl
  | cons kv rest ih =>
      intro h
      obtain ⟨k, cached⟩ := kv
      have hk := h (k, cached) (List.mem_cons_self _ _)
      obtain ⟨v, hv⟩ := Option.isSome_iff_exists.mp hk
      have hrest := ih (fun kv hkv => h kv (List.mem_cons_of_mem _ hkv))
      by_cases hne : cached = v
      · subst hne
        simp [Callback.should_run_cached_loop, hv, hrest]
      · have hne₂ : cached ≠ v := hne
        simp [Callback.should_run_cached_loop, hv, hrest, hne₂, Ne.symm hne₂]

/-- When some cached key is absent from the keyword arguments, the
`_should_run` loop raises a `KeyError`. -/
lemma should_run_cached_loop_missing (kwds : Dict) :
    ∀ cache : Dict, (∃ kv ∈ cache, dictGet? kwds kv.1 = Option.none) →
      ∃ k, Callback.should_run_cached_loop kwds cache = Except.error (PyErr.keyError k) := by
  intro cache
  induction cache with
  | nil => rintro ⟨kv, hkv, -⟩; cases hkv
  | cons kv₀ rest ih =>
      rintro ⟨kv, hkv, hmiss⟩
      obtain ⟨k, cached⟩ := kv₀
      by_cases hk : dictGet? kwds k = Option.none
      · exact ⟨k, by simp [Callback.should_run_cached_loop, hk]⟩
      · obtain ⟨v, hv⟩ := Option.ne_none_iff_exists'.mp hk
        rcases List.mem_cons.mp hkv with hhd | htl
        · exfalso
          rw [hhd] at hmiss
          simp only at hmiss
          rw [hmiss] at hv
          cases hv
        · obtain ⟨k₂, hk₂⟩ := ih ⟨kv, htl, hmiss⟩
          exact ⟨k₂, by simp [Callback.should_run_cached_loop, hv, hk₂]⟩

/-- Specification shorthand for the hypotheses of the snapshot-counting
claims: a display whose wrapped callback was constructed without a
cache decorator (plain `Callback(func)`, so `cache_type` is `None`) and
whose compute and render functions succeed on every input. -/
def NoCacheTotal (d : StatefulDisplay) : Prop :=
  d.callback.config.cache_type = Option.none
  ∧ (∀ snap : Dict, ∃ v, pyCall d.func snap = Except.ok v)
  ∧ (∀ v : PyVal, ∃ r, d.render_data v = Except.ok r)

/-- One snapshot notification of a cacheless display with total compute
and render: it succeeds, bumps both counters by one, and preserves the
`NoCacheTotal` property. -/
lemma notify_nocache (d : StatefulDisplay) (snap : Dict) (h : NoCacheTotal d) :
    ∃ d₂, on_viewer_state_changed d snap = Except.ok d₂
      ∧ NoCacheTotal d₂
      ∧ d₂.notify_count = d.notify_count + 1 ∧ d₂.compute_count = d.compute_count + 1 := by
  obtain ⟨hc, hf, hr⟩ := h
  obtain ⟨cb₂, hsr, hcfg, -⟩ := should_run_nocache d.callback snap hc
  obtain ⟨v, hv⟩ := hf snap
  obtain ⟨r, hrr⟩ := hr v
  let d₂ : StatefulDisplay :=
    { d with
        callback := cb₂
        notify_count := d.notify_count + 1
        compute_count := d.compute_count + 1
        renders := d.renders ++ [r] }
  refine ⟨d₂, ?_, ?_, rfl, rfl⟩
  · simp [on_viewer_state_changed, hsr, hv, hrr, d₂]
  · refine ⟨?_, hf, hr⟩
    simpa [d₂, hcfg] using hc

/-- A broadcast over cacheless, total displays never raises, preserves
the `NoCacheTotal` property of every subscriber, and bumps both counters
of every subscriber by exactly one. -/
lemma broadcast_nocache (snap : Dict) :
    ∀ ds : List StatefulDisplay, (∀ d ∈ ds, NoCacheTotal d) →
      ∃ ds₂, broadcast snap ds = (ds₂, Option.none)
        ∧ (∀ d ∈ ds₂, NoCacheTotal d)
        ∧ ds₂.map (fun d => (d.notify_count, d.compute_count))
            = ds.map (fun d => (d.notify_count + 1, d.compute_count + 1)) := by
  intro ds
  induction ds with
  | nil => intro _; exact ⟨[], rfl, by simp, rfl⟩
  | cons d rest ih =>
      intro h
      obtain ⟨d₂, hd₂, hP₂, hn₂, hc₂⟩ := notify_nocache d snap (h d (List.mem_cons_self _ _))
      obtain ⟨rest₂, hrest, hPrest, hcount⟩ := ih (fun x hx => h x (List.mem_cons_of_mem _ hx))
      refine ⟨d₂ :: rest₂, ?_, ?_, ?_⟩
      · simp [broadcast, hd₂, hrest]
      · intro x hx
        rcases List.mem_cons.mp hx with hx | hx
        · exact hx ▸ hP₂
        · exact hPrest x hx
      · simp [hcount, hn₂, hc₂]

/-- Each `modify_state` call commits the write first: the resulting
storage always holds the written value at the written key, whatever the
broadcast outcome. -/
lemma modify_state_storage (s : VisualizerState) (sig : ControlSignal) :
    (modify_state s sig).1.storage = dictSet s.storage sig.key sig.value := rfl

/-- Arithmetic congruence used to chain per-broadcast counter bumps
across a run of modifications. -/
lemma map_counts_shift (l₁ l₂ : List StatefulDisplay) (n : Nat)
    (h : l₁.map (fun d => (d.notify_count, d.compute_count))
        = l₂.map (fun d => (d.notify_count + 1, d.compute_count + 1))) :
    l₁.map (fun d => (d.notify_count + n, d.compute_count + n))
      = l₂.map (fun d => (d.notify_count + (n + 1), d.compute_count + (n + 1))) := by
  have h₂ := congrArg (List.map (fun p : Nat × Nat => (p.1 + n, p.2 + n))) h
  rw [List.map_map, List.map_map] at h₂
  have e₁ : ((fun p : Nat × Nat => (p.1 + n, p.2 + n)) ∘
        fun d : StatefulDisplay => (d.notify_count, d.compute_count))
      = fun d : StatefulDisplay => (d.notify_count + n, d.compute_count + n) := rfl
  have e₂ : ((fun p : Nat × Nat => (p.1 + n, p.2 + n)) ∘
        fun d : StatefulDisplay => (d.notify_count + 1, d.compute_count + 1))
      = fun d : StatefulDisplay =>
          (d.notify_count + (n + 1), d.compute_count + (n + 1)) := by
    funext d
    show (d.notify_count + 1 + n, d.compute_count + 1 + n)
        = (d.notify_count + (n + 1), d.compute_count + (n + 1))
    congr 1 <;> omega
  rw [e₁, e₂] at h₂
  exact h₂

/-- A run of `modify_state` calls against a hub of cacheless, total
displays raises nothing and bumps both counters of every subscriber by
exactly the number of calls. -/
lemma run_modifies_nocache :
    ∀ (sigs : List ControlSignal) (s : VisualizerState),
      (∀ d ∈ s.subscribers, NoCacheTotal d) →
      (run_modifies s sigs).2 = Option.none
      ∧ (run_modifies s sigs).1.subscribers.map (fun d => (d.notify_count, d.compute_count))
          = s.subscribers.map
              (fun d => (d.notify_count + sigs.length, d.compute_count + sigs.length)) := by
  intro sigs
  induction sigs with
  | nil => intro s _; exact ⟨rfl, by simp [run_modifies]⟩
  | cons sig rest ih =>
      intro s h
      obtain ⟨ds₂, hb, hP₂, hcount⟩ :=
        broadcast_nocache (dictSet s.storage sig.key sig.value) s.subscribers h
      let s₂ : VisualizerState :=
        { storage := dictSet s.storage sig.key sig.value
          subscribers := ds₂ }
      have hmod : modify_state s sig = (s₂, Option.none) := by
        simp [modify_state, hb, s₂]
      have hrun : run_modifies s (sig :: rest) = run_modifies s₂ rest := by
        simp [run_modifies, hmod]
      obtain ⟨htl₁, htl₂⟩ := ih s₂ hP₂
      refine ⟨by rw [hrun]; exact htl₁, ?_⟩
      rw [hrun, htl₂]
      exact map_counts_shift ds₂ s.subscribers rest.length hcount

/-- A modification of a hub without subscribers commits the write and
returns without error or notification. -/
lemma modify_state_no_subscribers (s : VisualizerState) (sig : ControlSignal)
    (h : s.subscribers = []) :
    modify_state s sig =
      ({ storage := dictSet s.storage sig.key sig.value, subscribers := [] },
        Option.none) := by
  simp [modify_state, h, broadcast]

/-- The control phase of `configure_state` on a hub without subscribers:
with pairwise distinct, non-empty keys that avoid the accumulated key
set, it folds every control value into storage and raises nothing. -/
lemma configure_loop_fresh :
    ∀ (cs : List Control) (keyset : List String) (st : VisualizerState),
      st.subscribers = [] →
      (∀ c ∈ cs, c.key ≠ "" ∧ c.key ∉ keyset) →
      (cs.map (fun c => c.key)).Nodup →
      configure_loop st keyset cs =
        Except.ok
          { storage := cs.foldl (fun d c => dictSet d c.key c.value) st.storage
            subscribers := [] } := by
  intro cs
  induction cs with
  | nil =>
      intro keyset st hsub _ _
      cases st
      simp only at hsub
      subst hsub
      rfl
  | cons c rest ih =>
      intro keyset st hsub hks hnd
      obtain ⟨hne, hnotin⟩ := hks c (List.mem_cons_self _ _)
      have hsig : mkControlSignal c.key c.value = Except.ok { key := c.key, value := c.value } := by
        simp [mkControlSignal, hne]
      have hmod := modify_state_no_subscribers st { key := c.key, value := c.value } hsub
      have hnd₂ : (rest.map (fun c => c.key)).Nodup := (List.nodup_cons.mp (by simpa using hnd)).2
      have hhd : c.key ∉ rest.map (fun c => c.key) := (List.nodup_cons.mp (by simpa using hnd)).1
      have hks₂ : ∀ c₂ ∈ rest, c₂.key ≠ "" ∧ c₂.key ∉ c.key :: keyset := by
        intro c₂ hc₂
        refine ⟨(hks c₂ (List.mem_cons_of_mem _ hc₂)).1, ?_⟩
        intro hmem
        rcases List.mem_cons.mp hmem with heq | hmem₂
        · exact hhd (heq ▸ List.mem_map_of_mem (fun c => c.key) hc₂)
        · exact (hks c₂ (List.mem_cons_of_mem _ hc₂)).2 hmem₂
      have ihres := ih (c.key :: keyset)
        { storage := dictSet st.storage c.key c.value, subscribers := [] } rfl hks₂ hnd₂
      simp [configure_loop, hnotin, hsig, hmod, ihres]

/-- A broadcast over fresh displays (first `should_run` call still
pending) whose compute and render succeed on the broadcast snapshot:
every display is notified once, computes once and renders once. -/
lemma broadcast_fresh (snap : Dict) :
    ∀ ds : List StatefulDisplay,
      (∀ d ∈ ds, d.callback.overridden = false
        ∧ ∃ v r, pyCall d.func snap = Except.ok v ∧ d.render_data v = Except.ok r) →
      ∃ ds₂, broadcast snap ds = (ds₂, Option.none)
        ∧ ds₂.map (fun d => (d.notify_count, d.compute_count))
            = ds.map (fun d => (d.notify_count + 1, d.compute_count + 1)) := by
  intro ds
  induction ds with
  | nil => intro _; exact ⟨[], rfl, rfl⟩
  | cons d rest ih =>
      intro h
      obtain ⟨hov, v, r, hv, hr⟩ := h d (List.mem_cons_self _ _)
      obtain ⟨rest₂, hrest, hcount⟩ := ih (fun x hx => h x (List.mem_cons_of_mem _ hx))
      have hsr := should_run_first d.callback snap hov
      let d₂ : StatefulDisplay :=
        { d with
            callback := { d.callback with overridden := true }
            notify_count := d.notify_count + 1
            compute_count := d.compute_count + 1
            renders := d.renders ++ [r] }
      have hnot : on_viewer_state_changed d snap = Except.ok d₂ := by
        simp [on_viewer_state_changed, hsr, hv, hr, d₂]
      refine ⟨d₂ :: rest₂, ?_, ?_⟩
      · simp [broadcast, hnot, hrest]
      · simp [hcount, d₂]

/-- The error raised while checking for duplicate keys dominates the
control phase: whenever the control list repeats a key, or mentions a
key already in the accumulated key set, `configure_loop` on a
subscriber-free hub raises a `ValueError` (for non-empty keys). -/
lemma configure_loop_dup :
    ∀ (cs : List Control) (keyset : List String) (st : VisualizerState),
      st.subscribers = [] →
      (∀ c ∈ cs, c.key ≠ "") →
      ((∃ c ∈ cs, c.key ∈ keyset) ∨ ¬ (cs.map (fun c => c.key)).Nodup) →
      ∃ m, configure_loop st keyset cs = Except.error (PyErr.valueError m) := by
  intro cs
  induction cs with
  | nil =>
      intro keyset st _ _ hdup
      rcases hdup with ⟨c, hc, -⟩ | hnd
      · cases hc
      · simp at hnd
  | cons c rest ih =>
      intro keyset st hsub hne hdup
      by_cases hc : c.key ∈ keyset
      · exact ⟨c.key, by simp [configure_loop, hc]⟩
      · have hcne := hne c (List.mem_cons_self _ _)
        have hsig : mkControlSignal c.key c.value
            = Except.ok { key := c.key, value := c.value } := by
          simp [mkControlSignal, hcne]
        have hmod := modify_state_no_subscribers st { key := c.key, value := c.value } hsub
        have hdup₂ : (∃ c₂ ∈ rest, c₂.key ∈ c.key :: keyset)
            ∨ ¬ (rest.map (fun c => c.key)).Nodup := by
          rcases hdup with ⟨c₂, hc₂, hcin⟩ | hnd
          · rcases List.mem_cons.mp hc₂ with heq | htl
            · exact absurd (heq ▸ hcin) hc
            · exact Or.inl ⟨c₂, htl, List.mem_cons_of_mem _ hcin⟩
          · by_cases hin : c.key ∈ rest.map (fun c => c.key)
            · obtain ⟨c₂, hc₂, hkey⟩ := List.mem_map.mp hin
              exact Or.inl ⟨c₂, hc₂, by rw [hkey]; exact List.mem_cons_self _ _⟩
            · refine Or.inr ?_
              intro hnd₂
              exact hnd (by simpa using List.nodup_cons.mpr ⟨hin, hnd₂⟩)
        obtain ⟨m, hm⟩ := ih (c.key :: keyset)
          { storage := dictSet st.storage c.key c.value, subscribers := [] } rfl
          (fun c₂ hc₂ => hne c₂ (List.mem_cons_of_mem _ hc₂)) hdup₂
        exact ⟨m, by simp [configure_loop, hc, hsig, hmod, hm]⟩

/-- A freshly constructed `StatefulDisplay` wrapping callback state `cb`
and user function `f`, with a render layer that succeeds and echoes the
computed value (standing for a concrete widget such as
`StatefulImageView._render_data`). -/
def mkDisplay (cb : Callback) (f : PyFunc) : StatefulDisplay :=
  { callback := cb
    func := f
    render_data := fun v => Except.ok v
    notify_count := 0
    compute_count := 0
    renders := [] }

/-- The storage produced by the control phase of `configure_state` on a
fresh hub: each control key mapped to its initial value, in binding
order. -/
def expected_storage (controls : List Control) : Dict :=
  controls.foldl (fun d c => dictSet d c.key c.value) []

/-- Concrete cold cache state for the sigma-tracking scenario: a
`Callback` produced with `whitelist=["sigma"]`, before any call. -/
def c1_cold_callback : Callback :=
  Callback.init
    { cache_type := Option.some CacheType.Fake, cached_parameters := ["sigma"] }

/-- The sigma-tracking cache after it has recorded `sigma = 0` (warm
state reached after the second `should_run` call). -/
def c1_warm_callback : Callback :=
  { c1_cold_callback with overridden := true, parameter_cache := [("sigma", PyVal.int 0)] }

/-- A user callback declaring exactly the named parameter `rho`. -/
def c2_func : PyFunc :=
  { params := ["rho"]
    defaults := []
    hasVarKw := false
    impl := fun _ => Except.ok (PyVal.int 7) }

/-- A user callback `f(**kwargs)` that accepts any snapshot. -/
def c3_func : PyFunc :=
  { params := []
    defaults := []
    hasVarKw := true
    impl := fun _ => Except.ok (PyVal.int 0) }

/-- A cacheless display over `c3_func`. -/
def c3_display : StatefulDisplay :=
  mkDisplay (Callback.init { cache_type := Option.none, cached_parameters := [] }) c3_func

/-- A hub with a single cacheless subscriber. -/
def c3_hub : VisualizerState := { storage := [], subscribers := [c3_display] }

/-- Two writes of the same key and value (unchanged values must still
rebroadcast). -/
def c3_signals : List ControlSignal :=
  [{ key := "rho", value := PyVal.int 0 }, { key := "rho", value := PyVal.int 0 }]

/-- A hub left over from an earlier binding that already stores key
`"k"`. -/
def c4_prior_hub : VisualizerState :=
  { storage := [("k", PyVal.int 0)], subscribers := [] }

/-- A control reusing the already-bound key `"k"` with a new value. -/
def c4_control : Control := { key := "k", value := PyVal.int 1 }

/-- Two controls sharing the key `"k"` inside one wiring call. -/
def c4_dup_controls : List Control :=
  [{ key := "k", value := PyVal.int 0 }, { key := "k", value := PyVal.int 1 }]

/-- A user callback declaring only `rho`, without `**kwargs`. -/
def c5_func : PyFunc :=
  { params := ["rho"]
    defaults := []
    hasVarKw := false
    impl := fun _ => Except.ok (PyVal.int 1) }

/-- A cacheless display over `c5_func`. -/
def c5_display : StatefulDisplay :=
  mkDisplay (Callback.init { cache_type := Option.none, cached_parameters := [] }) c5_func

/-- A user callback `f(**kwargs)` following the documented convention of
absorbing excess keys. -/
def c5_varkw_func : PyFunc :=
  { params := []
    defaults := []
    hasVarKw := true
    impl := fun _ => Except.ok (PyVal.int 2) }

/-- A cacheless display over `c5_varkw_func`. -/
def c5_varkw_display : StatefulDisplay :=
  mkDisplay (Callback.init { cache_type := Option.none, cached_parameters := [] }) c5_varkw_func

/-- The end-to-end scenario callback `f(rho, sigma) = rho + sigma`. -/
def demo_func : PyFunc :=
  { params := ["rho", "sigma"]
    defaults := []
    hasVarKw := false
    impl := fun args =>
      match dictGet? args "rho", dictGet? args "sigma" with
      | Option.some (PyVal.int r), Option.some (PyVal.int s) => Except.ok (PyVal.int (r + s))
      | _, _ => Except.error (PyErr.typeError "demo") }

/-- A cacheless display over `demo_func`. -/
def demo_display : StatefulDisplay :=
  mkDisplay (Callback.init { cache_type := Option.none, cached_parameters := [] }) demo_func

/-- The scenario controls: `rho` initialized to 50 and `sigma` to 0. -/
def demo_controls : List Control :=
  [{ key := "rho", value := PyVal.int 50 }, { key := "sigma", value := PyVal.int 0 }]

/-- A user callback whose compute raises. -/
def c7_fail_func : PyFunc :=
  { params := []
    defaults := []
    hasVarKw := true
    impl := fun _ => Except.error (PyErr.userError "boom") }

/-- A display whose compute raises on every snapshot. -/
def c7_display : StatefulDisplay :=
  mkDisplay (Callback.init { cache_type := Option.none, cached_parameters := [] }) c7_fail_func

/-- A hub whose only subscriber is the failing display. -/
def c7_hub : VisualizerState := { storage := [], subscribers := [c7_display] }

/-- The signal written by the failing broadcast. -/
def c7_sig : ControlSignal := { key := "rho", value := PyVal.int 3 }

/-- An animator mid-run at tick 41. -/
def c8_animator : StatefulAnimator := { animation_tick := 41, emitted := [] }

/-- An animator at tick 0, about to underflow. -/
def c9_animator : StatefulAnimator := { animation_tick := 0, emitted := [] }

/-- A callback `f(rho, sigma=0)` whose default-mode cache tracks both
named parameters. -/
def c10_func : PyFunc :=
  { params := ["rho", "sigma"]
    defaults := [("sigma", PyVal.int 0)]
    hasVarKw := false
    impl := fun _ => Except.ok (PyVal.int 0) }

/-- A display over `c10_func` whose cache tracks `rho` and `sigma`
(the default no-list mode of `use_parameter_cache`). -/
def c10_display : StatefulDisplay :=
  mkDisplay
    (Callback.init
      { cache_type := Option.some CacheType.Fake, cached_parameters := ["rho", "sigma"] })
    c10_func

/-- The tracked-both cache after its first call has swapped the
dispatched method. -/
def c10_warm_callback : Callback :=
  { Callback.init
      { cache_type := Option.some CacheType.Fake, cached_parameters := ["rho", "sigma"] }
    with overridden := true }

/-- The only control of the C10 hub: `rho` (no `sigma` control exists). -/
def c10_control : Control := { key := "rho", value := PyVal.int 0 }

/-- A later interaction with the `rho` control. -/
def c10_signal : ControlSignal := { key := "rho", value := PyVal.int 1 }

/-- Claim C1, counterexample.  For a display caching only `"sigma"` the
claim predicts that after the first call, a broadcast changing only the
untracked `"rho"` triggers no recomputation.  In the code the first
`should_run` call does not record the seen values (the cache still holds
the `None` sentinels), so the very next call — here changing only
`"rho"` while `"sigma"` stays `0` — compares `0` against `None`, reports
dirty, and triggers a recomputation: the pair of results is
`(true, true)` where the claim predicts `(true, false)`. -/
theorem C1_counterexample :
    ((use_parameter_cache ["rho", "sigma"] ["sigma"] (Blacklist.list [])).bind (fun cb =>
      (Callback.should_run cb [("rho", PyVal.int 0), ("sigma", PyVal.int 0)]).bind (fun r₁ =>
        (Callback.should_run r₁.2 [("rho", PyVal.int 1), ("sigma", PyVal.int 0)]).map
          (fun r₂ => (r₁.1, r₂.1)))))
    = Except.ok (true, true)
    ∧ (Except.ok (true, true) : Except PyErr (Bool × Bool)) ≠ Except.ok (true, false) :=
  ⟨rfl, by simp⟩

/-- Claim C1, amended.  The first `should_run` call returns true
without recording the seen values (the tracked values stay at the
`None` sentinel installed at construction); every later call returns
true exactly when some tracked parameter differs from the recorded
value — the sentinel until it is first overwritten — and records the
current values of the tracked parameters.  Hence one spurious
recomputation occurs on the first broadcast whose tracked values differ
from the sentinel, after which broadcasts changing only untracked
parameters trigger zero recomputations and a broadcast changing a
tracked parameter triggers exactly one. -/
theorem C1_amended_theorem
    (cbc : Callback) (kc : Dict) (cbw : Callback) (kw : Dict)
    (h₁ : cbc.overridden = false)
    (h₂ : cbw.overridden = true)
    (h₃ : cbw.config.cache_type = Option.some CacheType.Fake)
    (h₄ : ∀ kv ∈ cbw.parameter_cache, (dictGet? kw kv.1).isSome = true) :
    Callback.should_run cbc kc = Except.ok (true, { cbc with overridden := true })
    ∧ Callback.should_run cbw kw =
        Except.ok
          (cbw.parameter_cache.any (fun kv => decide (dictGet? kw kv.1 ≠ Option.some kv.2)),
           { cbw with
              parameter_cache :=
                cbw.parameter_cache.map (fun kv => (kv.1, (dictGet? kw kv.1).getD kv.2)) }) := by
  refine ⟨should_run_first cbc kc h₁, ?_⟩
  have hloop := should_run_cached_loop_spec kw cbw.parameter_cache h₄
  simp [Callback.should_run, h₂, h₃, hloop]

/-- Claim C1, witness: the cold sigma-tracking cache answers true on its
first call without recording, and the warm cache (tracking
`sigma = 0`) answers false on a broadcast that changes only `rho`. -/
theorem C1_witness :
    Callback.should_run c1_cold_callback [("rho", PyVal.int 0), ("sigma", PyVal.int 0)]
      = Except.ok (true, { c1_cold_callback with overridden := true })
    ∧ Callback.should_run c1_warm_callback [("rho", PyVal.int 1), ("sigma", PyVal.int 0)]
      = Except.ok (false, { c1_warm_callback with parameter_cache := [("sigma", PyVal.int 0)] }) := by
  have h := C1_amended_theorem c1_cold_callback [("rho", PyVal.int 0), ("sigma", PyVal.int 0)]
    c1_warm_callback [("rho", PyVal.int 1), ("sigma", PyVal.int 0)] rfl rfl rfl (by decide)
  exact ⟨h.1, h.2⟩

/-- Claim C2.  The claim (and both the spec and the docstring of
`use_parameter_cache`) say exclude-all mode tracks nothing and freezes
the display after its first render; the code instead sets
`cached_parameters` to the whole paramset in the `blacklist == "all"`
branch, so for `f(rho)` the tracked set is `["rho"]` (not empty) and a
second broadcast of the unchanged value `rho = 0` still reruns compute
(the `None` sentinel differs from `0`), giving 2 compute cycles where
the claim requires exactly 1. -/
theorem C2_code_bug_theorem :
    (use_parameter_cache ["rho"] [] Blacklist.all).map (fun cb => cb.config.cached_parameters)
      = Except.ok ["rho"]
    ∧ ((use_parameter_cache ["rho"] [] Blacklist.all).bind (fun cb =>
        (on_viewer_state_changed (mkDisplay cb c2_func) [("rho", PyVal.int 0)]).bind (fun d₁ =>
          (on_viewer_state_changed d₁ [("rho", PyVal.int 0)]).map (fun d₂ => d₂.compute_count))))
      = Except.ok 2 := ⟨rfl, rfl⟩

/-- Claim C3.  For every sequence of `modify` calls on a hub, every
subscribed display with no cache (and total compute and render) is
notified once per call and performs one compute plus render cycle per
call, even when the written values never change: no batching and no
deduplication. -/
theorem C3_theorem (s : VisualizerState) (sigs : List ControlSignal)
    (h : ∀ d ∈ s.subscribers, NoCacheTotal d) :
    (run_modifies s sigs).2 = Option.none
    ∧ (run_modifies s sigs).1.subscribers.map (fun d => (d.notify_count, d.compute_count))
        = s.subscribers.map
            (fun d => (d.notify_count + sigs.length, d.compute_count + sigs.length)) :=
  run_modifies_nocache sigs s h

/-- Claim C3, witness: two writes of the identical value to a
single-subscriber hub notify the cacheless display twice and make it
compute twice. -/
theorem C3_witness :
    (run_modifies c3_hub c3_signals).2 = Option.none
    ∧ (run_modifies c3_hub c3_signals).1.subscribers.map
        (fun d => (d.notify_count, d.compute_count)) = [(2, 2)] := by
  have hyp : ∀ d ∈ c3_hub.subscribers, NoCacheTotal d := by
    intro d hd
    simp only [c3_hub, List.mem_singleton] at hd
    subst hd
    exact ⟨rfl, fun snap => ⟨PyVal.int 0, rfl⟩, fun v => ⟨v, rfl⟩⟩
  have h := C3_theorem c3_hub c3_signals hyp
  exact ⟨h.1, by rw [h.2]; rfl⟩

/-- Claim C4, counterexample.  The claim says binding a control whose
key is already present in the hub storage from an earlier binding
raises a configuration error and nothing is overwritten; the code only
checks duplicates inside the current call, so wiring the control
`("k", 1)` against a hub already storing `k = 0` succeeds and silently
overwrites the old value. -/
theorem C4_counterexample :
    ∃ st, configure_state [] [c4_control] (Option.some c4_prior_hub) = Except.ok st
      ∧ st.storage = [("k", PyVal.int 1)] :=
  ⟨_, rfl, rfl⟩

/-- Claim C4, amended.  Two controls sharing a key inside one wiring
call (with non-empty keys) make `configure_state` on a fresh hub raise
a `ValueError` at bind time; since displays are only connected after the
control phase, no display is subscribed when the error is raised, so no
display ever receives a broadcast.  A key that is already present in a
previously bound hub storage is not detected and is overwritten. -/
theorem C4_amended_theorem (displays : List StatefulDisplay) (controls : List Control)
    (hne : ∀ c ∈ controls, c.key ≠ "")
    (hdup : ¬ (controls.map (fun c => c.key)).Nodup) :
    ∃ m, configure_state displays controls Option.none = Except.error (PyErr.valueError m) := by
  obtain ⟨m, hm⟩ := configure_loop_dup controls []
    { storage := [], subscribers := [] } rfl hne (Or.inr hdup)
  exact ⟨m, by simp [configure_state, hm]⟩

/-- Claim C4, witness: wiring two controls that both use key `"k"`
raises a `ValueError`. -/
theorem C4_witness :
    ∃ m, configure_state [] c4_dup_controls Option.none = Except.error (PyErr.valueError m) :=
  C4_amended_theorem [] c4_dup_controls (by decide) (by decide)

/-- Claim C5, counterexample.  The claim says a snapshot with more keys
than the callback declares never makes the notification fail because
only the matching subset is passed; the code forwards the whole
snapshot, so a cacheless display whose callback declares only `rho`
(and no variadic keywords) raises `TypeError` on the excess key
`sigma`. -/
theorem C5_counterexample :
    on_viewer_state_changed c5_display [("rho", PyVal.int 0), ("sigma", PyVal.int 1)]
      = Except.error (PyErr.typeError "sigma") := rfl

/-- Claim C5, amended.  The notification passes the entire snapshot to
the callback as keyword arguments.  A callback that declares a variadic
keyword parameter (the convention documented in the demo) absorbs and
ignores the excess keys, so the notification succeeds and computes; a
callback without one raises a `TypeError` on the first excess key. -/
theorem C5_amended_theorem
    (d : StatefulDisplay) (snap : Dict)
    (hnc : d.callback.config.cache_type = Option.none)
    (hva : d.func.hasVarKw = true)
    (hmp : missing_param d.func snap = Option.none)
    (himpl : ∃ v, d.func.impl (bound_args d.func snap) = Except.ok v)
    (hrender : ∀ v, ∃ r, d.render_data v = Except.ok r)
    (g : PyFunc) (kwargs : Dict) (k : String)
    (hgv : g.hasVarKw = false)
    (hk : k ∈ kwargs.map Prod.fst)
    (hkp : ¬ g.params.contains k) :
    (∃ d₂, on_viewer_state_changed d snap = Except.ok d₂
        ∧ d₂.compute_count = d.compute_count + 1)
    ∧ (∃ k₂, pyCall g kwargs = Except.error (PyErr.typeError k₂)) := by
  constructor
  · obtain ⟨cb₂, hsr, -, -⟩ := should_run_nocache d.callback snap hnc
    obtain ⟨v, hv⟩ := himpl
    obtain ⟨r, hr⟩ := hrender v
    have hcall : pyCall d.func snap = Except.ok v := by
      simp [pyCall, unexpected_key, hva, hmp, hv]
    let d₂ : StatefulDisplay :=
      { d with
          callback := cb₂
          notify_count := d.notify_count + 1
          compute_count := d.compute_count + 1
          renders := d.renders ++ [r] }
    refine ⟨d₂, ?_, rfl⟩
    simp [on_viewer_state_changed, hsr, hcall, hr, d₂]
  · have hfind : unexpected_key g kwargs
        = (kwargs.map Prod.fst).find? (fun k₀ => !g.params.contains k₀) := by
      simp [unexpected_key, hgv]
    have hsome : (unexpected_key g kwargs).isSome := by
      rw [hfind]
      exact (List.find?_isSome).mpr ⟨k, hk, by simpa using hkp⟩
    obtain ⟨k₂, hk₂⟩ := Option.isSome_iff_exists.mp hsome
    exact ⟨k₂, by simp [pyCall, hk₂]⟩

/-- Claim C5, witness: the variadic-keyword display computes on a
snapshot with excess keys, while calling the rho-only callback with
that snapshot raises a `TypeError`. -/
theorem C5_witness :
    (∃ d₂, on_viewer_state_changed c5_varkw_display [("rho", PyVal.int 0), ("sigma", PyVal.int 1)]
        = Except.ok d₂ ∧ d₂.compute_count = c5_varkw_display.compute_count + 1)
    ∧ (∃ k₂, pyCall c5_func [("rho", PyVal.int 0), ("sigma", PyVal.int 1)]
        = Except.error (PyErr.typeError k₂)) :=
  C5_amended_theorem c5_varkw_display [("rho", PyVal.int 0), ("sigma", PyVal.int 1)]
    rfl rfl rfl ⟨PyVal.int 2, rfl⟩ (fun v => ⟨v, rfl⟩)
    c5_func [("rho", PyVal.int 0), ("sigma", PyVal.int 1)] "sigma" rfl (by decide) (by decide)

/-- Claim C6.  Wiring a fresh hub pushes every control value into
storage before any display subscribes (so the flush snapshot is exactly
the map from each control key to its initial value), then flushes once:
every display is notified exactly once, computes once and renders once.
The closed conjunct runs the end-to-end scenario: controls `rho = 50`
and `sigma = 0` with callback `rho + sigma` produce the single rendered
value `50`. -/
theorem C6_theorem (displays : List StatefulDisplay) (controls : List Control)
    (hkey : ∀ c ∈ controls, c.key ≠ "")
    (hnd : (controls.map (fun c => c.key)).Nodup)
    (hfresh : ∀ d ∈ displays, d.callback.overridden = false)
    (hcall : ∀ d ∈ displays, ∃ v r, pyCall d.func (expected_storage controls) = Except.ok v
        ∧ d.render_data v = Except.ok r) :
    (∃ st, configure_state displays controls Option.none = Except.ok st
        ∧ st.storage = expected_storage controls
        ∧ st.subscribers.map (fun d => (d.notify_count, d.compute_count))
            = displays.map (fun d => (d.notify_count + 1, d.compute_count + 1)))
    ∧ (configure_state [demo_display] demo_controls Option.none).map
        (fun st => (st.storage, st.subscribers.map (fun d => d.renders)))
      = Except.ok ([("rho", PyVal.int 50), ("sigma", PyVal.int 0)], [[PyVal.int 50]]) := by
  refine ⟨?_, rfl⟩
  have hloop := configure_loop_fresh controls [] { storage := [], subscribers := [] } rfl
    (fun c hc => ⟨hkey c hc, by simp⟩) hnd
  obtain ⟨ds₂, hb, hcount⟩ := broadcast_fresh (expected_storage controls) displays
    (fun d hd => ⟨hfresh d hd, hcall d hd⟩)
  refine ⟨{ storage := expected_storage controls, subscribers := ds₂ }, ?_, rfl, hcount⟩
  simp only [expected_storage] at hb
  simp [configure_state, hloop, flush, expected_storage, hb]

/-- Claim C6, witness: the end-to-end scenario hub wires without error,
stores the two initial control values, and its single display is
notified and computed exactly once. -/
theorem C6_witness :
    ∃ st, configure_state [demo_display] demo_controls Option.none = Except.ok st
      ∧ st.storage = expected_storage demo_controls
      ∧ st.subscribers.map (fun d => (d.notify_count, d.compute_count)) = [(1, 1)] := by
  have hcall : ∀ d ∈ [demo_display], ∃ v r,
      pyCall d.func (expected_storage demo_controls) = Except.ok v
        ∧ d.render_data v = Except.ok r := by
    intro d hd
    simp only [List.mem_singleton] at hd
    subst hd
    exact ⟨PyVal.int 50, PyVal.int 50, rfl, rfl⟩
  have h := (C6_theorem [demo_display] demo_controls (by decide) (by decide)
    (by decide) hcall).1
  obtain ⟨st, h₁, h₂, h₃⟩ := h
  exact ⟨st, h₁, h₂, by rw [h₃]; rfl⟩

/-- Claim C7.  `modify_state` commits the write before broadcasting:
whatever the broadcast outcome, the resulting storage holds the written
value at the written key; and when the first subscribed display raises
inside its compute or render, the very same exception escapes
`modify_state` unmodified. -/
theorem C7_theorem (s : VisualizerState) (sig : ControlSignal) :
    dictGet? ((modify_state s sig).1.storage) sig.key = Option.some sig.value
    ∧ ∀ (d : StatefulDisplay) (rest : List StatefulDisplay) (e : PyErr),
        s.subscribers = d :: rest →
        on_viewer_state_changed d (dictSet s.storage sig.key sig.value) = Except.error e →
        (modify_state s sig).2 = Option.some e := by
  constructor
  · rw [modify_state_storage]
    exact dictGet?_dictSet_self s.storage sig.key sig.value
  · intro d rest e hsub herr
    simp [modify_state, hsub, broadcast, herr]

/-- Claim C7, witness: a display whose compute raises makes the write
visible in storage while the raised exception escapes the `modify`
call unmodified. -/
theorem C7_witness :
    dictGet? ((modify_state c7_hub c7_sig).1.storage) c7_sig.key = Option.some c7_sig.value
    ∧ (modify_state c7_hub c7_sig).2 = Option.some (PyErr.userError "boom") := by
  have h := C7_theorem c7_hub c7_sig
  exact ⟨h.1, h.2 c7_display [] (PyErr.userError "boom") rfl rfl⟩

/-- Claim C8.  From any counter value, `forward()` followed immediately
by `reverse()` restores the counter (increment then decrement modulo
`2 ^ 64`), and each of the two calls appends exactly one emitted
`ControlSignal` keyed `"animation_tick"`. -/
theorem C8_theorem (a : StatefulAnimator) (h : a.animation_tick < UINT64_MOD) :
    (a.forward.reverse).animation_tick = a.animation_tick
    ∧ a.forward.emitted = a.emitted ++ [tick_signal ((a.animation_tick + 1) % UINT64_MOD)]
    ∧ (a.forward.reverse).emitted
        = a.emitted ++ [tick_signal ((a.animation_tick + 1) % UINT64_MOD),
            tick_signal a.animation_tick] := by
  have key : ((a.animation_tick + 1) % UINT64_MOD + (UINT64_MOD - 1)) % UINT64_MOD
      = a.animation_tick := by
    unfold UINT64_MOD at h ⊢
    omega
  refine ⟨?_, rfl, ?_⟩
  · simp [StatefulAnimator.forward, StatefulAnimator.reverse, StatefulAnimator.on_change, key]
  · simp [StatefulAnimator.forward, StatefulAnimator.reverse, StatefulAnimator.on_change, key]

/-- Claim C8, witness: at tick 41, forward then reverse returns to 41
and emits the two `"animation_tick"` signals 42 and 41. -/
theorem C8_witness :
    (c8_animator.forward.reverse).animation_tick = 41
    ∧ c8_animator.forward.emitted = [tick_signal 42]
    ∧ (c8_animator.forward.reverse).emitted = [tick_signal 42, tick_signal 41] := by
  have h := C8_theorem c8_animator (by decide)
  exact ⟨h.1, h.2.1, h.2.2⟩

/-- Claim C9.  `reverse()` decrements the `np.uint64` counter by
subtraction modulo `2 ^ 64` with no guard, so calling it at counter 0
wraps the counter to `2 ^ 64 - 1`. -/
theorem C9_theorem (a : StatefulAnimator) :
    (a.reverse).animation_tick = (a.animation_tick + (UINT64_MOD - 1)) % UINT64_MOD
    ∧ UINT64_MOD = 2 ^ 64
    ∧ (a.animation_tick = 0 → (a.reverse).animation_tick = UINT64_MOD - 1) := by
  refine ⟨rfl, by norm_num [UINT64_MOD], ?_⟩
  intro h0
  show (a.animation_tick + (UINT64_MOD - 1)) % UINT64_MOD = UINT64_MOD - 1
  rw [h0]
  unfold UINT64_MOD
  omega

/-- Claim C9, witness: reversing at counter 0 leaves the counter at
`2 ^ 64 - 1`. -/
theorem C9_witness :
    (c9_animator.reverse).animation_tick = UINT64_MOD - 1 :=
  (C9_theorem c9_animator).2.2 rfl

/-- Claim C10.  When the cache tracks a parameter name that is absent
from the broadcast keyword arguments, the dirty-check (dispatched from
the second call on) raises a `KeyError`, while the first dirty-check
call always succeeds with true; and nothing at construction or bind
time validates tracked names against the hub keys: wiring the
rho-plus-sigma-tracking display against a hub whose only control is
`rho` succeeds (the flush notification computes via the `sigma`
default), and the next `modify` then fails with `KeyError` on
`"sigma"`. -/
theorem C10_theorem (cb : Callback) (kwds : Dict) (p : String)
    (hov : cb.overridden = true)
    (hft : cb.config.cache_type = Option.some CacheType.Fake)
    (hp : p ∈ cb.parameter_cache.map Prod.fst)
    (hmiss : dictGet? kwds p = Option.none) :
    (∃ k, Callback.should_run cb kwds = Except.error (PyErr.keyError k))
    ∧ (∀ (cb₀ : Callback) (kwds₀ : Dict), cb₀.overridden = false →
          Callback.should_run cb₀ kwds₀ = Except.ok (true, { cb₀ with overridden := true }))
    ∧ (∃ st, configure_state [c10_display] [c10_control] Option.none = Except.ok st
          ∧ (run_modifies st [c10_signal]).2 = Option.some (PyErr.keyError "sigma")) := by
  refine ⟨?_, fun cb₀ kwds₀ h₀ => should_run_first cb₀ kwds₀ h₀, ⟨_, rfl, rfl⟩⟩
  obtain ⟨kv, hkv, hfst⟩ := List.mem_map.mp hp
  obtain ⟨k, hk⟩ := should_run_cached_loop_missing kwds cb.parameter_cache
    ⟨kv, hkv, by rw [hfst]; exact hmiss⟩
  refine ⟨k, ?_⟩
  simp [Callback.should_run, hov, hft, hk]

/-- Claim C10, witness: the warm rho-and-sigma-tracking cache raises a
`KeyError` on a snapshot lacking `sigma`, and the end-to-end hub wires
successfully before failing on the second notification. -/
theorem C10_witness :
    (∃ k, Callback.should_run c10_warm_callback [("rho", PyVal.int 1)]
        = Except.error (PyErr.keyError k))
    ∧ (∃ st, configure_state [c10_display] [c10_control] Option.none = Except.ok st
          ∧ (run_modifies st [c10_signal]).2 = Option.some (PyErr.keyError "sigma")) := by
  have h := C10_theorem c10_warm_callback [("rho", PyVal.int 1)] "sigma" rfl rfl
    (by decide) rfl
  exact ⟨h.1, h.2.2⟩
